import Mathlib

/-
Shallow embedding of the leptos-rs "preview" demo application
(src/src/app.rs): an in-memory post store, two server functions
(`list_post_metadata`, `get_post`), the home page's derived post count,
the post page's route-parameter parsing, resource fetch and result
mapping, the error boundary's rendering, and the route table.

Modelling conventions:
- Rust `usize` is modelled as `Nat` (the seed ids 0, 1, 2 and every id the
  claims mention are far below any word-size bound, so overflow is moot).
- `Result<T, E>` is `Except E T`; `Option<T>` is `Option T`; `Vec<T>` and
  the lazily initialised `POSTS` vector are `List`.
- The `#[server]` functions' artificial `tokio::time::sleep` delay is a
  timing side effect with no influence on the returned value and is
  dropped.
- `ServerFnError` (a leptos library type external to this repository) is
  modelled opaquely by a single message-carrying constructor; no claim
  depends on its structure, only on whether a call failed.
- `ParamsError` (leptos_router) is modelled by its two variants; the
  opaque payload of `Params` is dropped.
-/

/-- Rust struct `Post` (app.rs lines 208-213). -/
structure Post where
  id : Nat
  title : String
  content : String
  deriving DecidableEq, Repr

/-- Rust struct `PostMetadata` (app.rs lines 215-219): the projection of
`Post` to id and title; it has no content field. -/
structure PostMetadata where
  id : Nat
  title : String
  deriving DecidableEq, Repr

/-- Rust enum `PostError` (app.rs lines 198-206). -/
inductive PostError where
  | InvalidId
  | PostNotFound
  | ServerError
  deriving DecidableEq, Repr

/-- The `#[error("...")]` display strings of `PostError` (thiserror
attributes, app.rs lines 200-204); `error.to_string()` produces these. -/
def post_error_message : PostError → String
  | PostError.InvalidId => "Invalid post ID."
  | PostError.PostNotFound => "Post not found."
  | PostError.ServerError => "Server error."

/-- Opaque model of leptos's `ServerFnError` (library type, external to
this repository): the claims only distinguish failure from success. -/
inductive ServerFnError where
  | err (msg : String)
  deriving DecidableEq, Repr

/-- Model of leptos_router's `ParamsError`; the payload of the parse
failure variant is opaque in the source and dropped here. -/
inductive ParamsError where
  | missingParam (name : String)
  | params
  deriving DecidableEq, Repr

/-- The seed store `POSTS` (app.rs lines 178-196): a lazily initialised,
process-wide vector with no mutation path anywhere in the source. -/
def POSTS : List Post :=
  [Post.mk 0 "My first post" "This is my first post",
   Post.mk 1 "My second post" "This is my second post",
   Post.mk 2 "My third post" "This is my third post"]

/-- Server function `list_post_metadata` (app.rs lines 221-231): projects
every `Post` in `POSTS` to `PostMetadata`, preserving order, and wraps the
result in `Ok`. -/
def list_post_metadata : Except ServerFnError (List PostMetadata) :=
  Except.ok (POSTS.map (fun data => PostMetadata.mk data.id data.title))

/-- Server function `get_post` (app.rs lines 233-237): linear lookup of
the first post whose id equals the input, wrapped in `Ok`. -/
def get_post (id : Nat) : Except ServerFnError (Option Post) :=
  Except.ok (POSTS.find? (fun post => post.id == id))

/-- The home page's `post_count` resource body (app.rs lines 89-91):
`posts.await.unwrap_or_default().len()`, applied to the resolved value of
the `list_post_metadata` resource (`unwrap_or_default` yields the empty
vector on failure). -/
def post_count (posts : Except ServerFnError (List PostMetadata)) : Nat :=
  (match posts with
   | Except.ok l => l
   | Except.error _ => []).length

/-- Rust struct `PostParams` (app.rs lines 104-107). -/
structure PostParams where
  id : Option Nat
  deriving DecidableEq, Repr

/-- Helper for `parse_usize`: folds decimal digits left to right,
failing on the first non-digit character. -/
def digits_to_nat (acc : Nat) : List Char → Option Nat
  | [] => some acc
  | c :: cs =>
      if c.isDigit then digits_to_nat (acc * 10 + (c.toNat - 48)) cs
      else none

/-- Rust `str::parse::<usize>` as used by the `Params` derive: an optional
leading plus sign followed by at least one decimal digit (overflow, which
cannot arise for the ids in the claims, is not modelled). -/
def parse_usize (s : String) : Option Nat :=
  match s.data with
  | [] => none
  | ['+'] => none
  | '+' :: cs => digits_to_nat 0 cs
  | cs => digits_to_nat 0 cs

/-- The `Params` derive for `PostParams` (app.rs line 104): the input is
the raw value of the `id` route parameter (`none` when the parameter is
absent from the route). An absent parameter parses to `id = None`; a
present parameter must parse as `usize`, else the whole parse fails with
`ParamsError::Params`. -/
def parse_post_params (raw : Option String) : Except ParamsError PostParams :=
  match raw with
  | none => Except.ok (PostParams.mk none)
  | some s =>
      match parse_usize s with
      | some n => Except.ok (PostParams.mk (some n))
      | none => Except.error ParamsError.params

/-- The `id` closure of the `Post` component (app.rs lines 112-118):
`query.read().as_ref().map(|q| q.id.unwrap_or_default()).map_err(|_| PostError::InvalidId)`. -/
def post_id (query : Except ParamsError PostParams) : Except PostError Nat :=
  Except.mapError (fun _ => PostError.InvalidId)
    (Except.map (fun q => q.id.getD 0) query)

/-- Rust `Option::ok_or`. -/
def ok_or (o : Option α) (e : ε) : Except ε α :=
  match o with
  | some a => Except.ok a
  | none => Except.error e

/-- The `post_resource` fetcher (app.rs lines 119-127), with the post
endpoint abstracted as a parameter (in the source it is `get_post`):
an `Err` id is returned as is without invoking the endpoint; an `Ok` id
is passed to the endpoint, whose `Ok(data)` is mapped by
`data.ok_or(PostError::PostNotFound)` and whose `Err` is mapped to
`PostError::ServerError`. -/
def post_resource_fetch (endpoint : Nat → Except ServerFnError (Option Post))
    (id : Except PostError Nat) : Except PostError (Except PostError Post) :=
  match id with
  | Except.error e => Except.error e
  | Except.ok i =>
      Except.mapError (fun _ => PostError.ServerError)
        (Except.map (fun data => ok_or data PostError.PostNotFound) (endpoint i))

/-- The rendered output of the post page's success branch (app.rs lines
131-140): the `<h1>` heading, `<p>` body, `<Title>` text and the
description `<Meta>` content. -/
structure PostRender where
  heading : String
  body : String
  metaTitle : String
  metaDescription : String
  deriving DecidableEq, Repr

/-- The `post_view` result mapping (app.rs lines 129-143): only
`Ok(Ok(post))` renders the post; every other outcome becomes
`Err(PostError::ServerError)`. -/
def post_view (res : Except PostError (Except PostError Post)) :
    Except PostError PostRender :=
  match res with
  | Except.ok (Except.ok post) =>
      Except.ok (PostRender.mk post.title post.content post.title post.content)
  | _ => Except.error PostError.ServerError

/-- The `ErrorBoundary` fallback (app.rs lines 148-172): maps every
collected `(key, error)` pair to `error.to_string()` rendered in a list
item; the keys are ignored. -/
def error_boundary_fallback (errors : List (Nat × PostError)) : List String :=
  errors.map (fun e => post_error_message e.2)

/-- The SSR modes named in the route table (leptos `SsrMode`; the home
route uses the default out-of-order streaming mode). -/
inductive SsrMode where
  | outOfOrder
  | inOrder
  | async
  deriving DecidableEq, Repr

/-- What a matched route dispatches to. -/
inductive RouteTarget where
  | homePage
  | postPage (mode : SsrMode)
  | fallbackView (body : String)
  deriving DecidableEq, Repr

/-- The `FlatRoutes` table of `App` (app.rs lines 19 and 30-49) over a
path split into segments (the root path `/` is the empty segment list):
`StaticSegment("")` maps to `HomePage`; `(StaticSegment("post"),
ParamSegment("id"))` maps to `Post` with `SsrMode::Async`;
`(StaticSegment("post_in_order"), ParamSegment("id"))` maps to `Post`
with `SsrMode::InOrder`; everything else falls to the fallback
`"Page not found."`. -/
def matchRoute (segs : List String) : RouteTarget :=
  match segs with
  | [] => RouteTarget.homePage
  | [a, _] =>
      if a = "post" then RouteTarget.postPage SsrMode.async
      else if a = "post_in_order" then RouteTarget.postPage SsrMode.inOrder
      else RouteTarget.fallbackView "Page not found."
  | _ => RouteTarget.fallbackView "Page not found."

/-- C1: for every id present in the seed store (ids 0, 1 and 2),
`get_post` returns a success carrying `some` post whose id, title and
content equal the seed post with that id. -/
theorem c1_get_post_seed :
    get_post 0 = Except.ok (some (Post.mk 0 "My first post" "This is my first post"))
    ∧ get_post 1 = Except.ok (some (Post.mk 1 "My second post" "This is my second post"))
    ∧ get_post 2 = Except.ok (some (Post.mk 2 "My third post" "This is my third post")) :=
  ⟨rfl, rfl, rfl⟩

/-- C2: for every id carried by no post of the seed store, `get_post`
returns a success carrying `none`. -/
theorem c2_get_post_absent (id : Nat) (h : ∀ p ∈ POSTS, p.id ≠ id) :
    get_post id = Except.ok none := by
  unfold get_post
  congr 1
  rw [List.find?_eq_none]
  intro p hp
  simpa using h p hp

/-- C2 witness: id 999 is absent from the seed store and `get_post 999`
returns a success carrying `none`. -/
theorem c2_get_post_absent_witness : get_post 999 = Except.ok none :=
  c2_get_post_absent 999 (by decide)

/-- C3: `list_post_metadata` succeeds with exactly one `PostMetadata`
entry per seed post, in store order, each carrying the corresponding
post's id and title (the `PostMetadata` type has no content field). -/
theorem c3_list_post_metadata_projection :
    list_post_metadata =
      Except.ok [PostMetadata.mk 0 "My first post",
                 PostMetadata.mk 1 "My second post",
                 PostMetadata.mk 2 "My third post"]
    ∧ [PostMetadata.mk 0 "My first post",
       PostMetadata.mk 1 "My second post",
       PostMetadata.mk 2 "My third post"].length = POSTS.length :=
  ⟨rfl, rfl⟩

/-- C4: the home page's derived post count equals the length of the list
returned by the metadata request when it succeeds, and 0 when it fails. -/
theorem c4_post_count :
    (∀ l, post_count (Except.ok l) = l.length)
    ∧ (∀ e, post_count (Except.error e) = 0) :=
  ⟨fun _ => rfl, fun _ => rfl⟩

/-- C5 counterexample: with the `id` route parameter absent, the
parameters still parse, the `id` closure yields `Ok 0` rather than
`Err(InvalidId)`, and the fetch does invoke the post endpoint, returning
the seed post with id 0. -/
theorem c5_counterexample_missing_id :
    parse_post_params none = Except.ok (PostParams.mk none)
    ∧ post_id (parse_post_params none) = Except.ok 0
    ∧ post_id (parse_post_params none) ≠ Except.error PostError.InvalidId
    ∧ post_resource_fetch get_post (post_id (parse_post_params none)) =
        Except.ok (Except.ok (Post.mk 0 "My first post" "This is my first post")) :=
  ⟨rfl, rfl, fun h => Except.noConfusion h, rfl⟩

/-- C5 amended: if the `id` route parameter is present but unparseable,
the `id` closure yields `Err(InvalidId)` and the fetch returns that error
without consulting the post endpoint (its result is the same for every
endpoint); an absent parameter instead defaults to id 0. -/
theorem c5_unparseable_invalid_id (s : String) (h : parse_usize s = none) :
    post_id (parse_post_params (some s)) = Except.error PostError.InvalidId
    ∧ (∀ f g, post_resource_fetch f (post_id (parse_post_params (some s))) =
        post_resource_fetch g (post_id (parse_post_params (some s))))
    ∧ post_id (parse_post_params none) = Except.ok 0 := by
  have hq : parse_post_params (some s) = Except.error ParamsError.params := by
    simp only [parse_post_params, h]
  rw [hq]
  exact ⟨rfl, fun f g => rfl, rfl⟩

/-- C5 witness: the parameter value "abc" is unparseable, yields
`Err(InvalidId)`, and the fetch result is endpoint-independent there. -/
theorem c5_unparseable_invalid_id_witness :
    post_id (parse_post_params (some "abc")) = Except.error PostError.InvalidId
    ∧ (∀ f g, post_resource_fetch f (post_id (parse_post_params (some "abc"))) =
        post_resource_fetch g (post_id (parse_post_params (some "abc"))))
    ∧ post_id (parse_post_params none) = Except.ok 0 :=
  c5_unparseable_invalid_id "abc" (by decide)

/-- C6: in the post page's fetch step, an endpoint failure maps to
`PostError::ServerError`, an endpoint success carrying `none` maps to
`PostError::PostNotFound`, and a success carrying `some post` passes the
post through. -/
theorem c6_fetch_mapping :
    (∀ (e : ServerFnError) (i : Nat),
      post_resource_fetch (fun _ => Except.error e) (Except.ok i) =
        Except.error PostError.ServerError)
    ∧ (∀ i : Nat,
      post_resource_fetch (fun _ => Except.ok none) (Except.ok i) =
        Except.ok (Except.error PostError.PostNotFound))
    ∧ (∀ (p : Post) (i : Nat),
      post_resource_fetch (fun _ => Except.ok (some p)) (Except.ok i) =
        Except.ok (Except.ok p)) :=
  ⟨fun _ _ => rfl, fun _ => rfl, fun _ _ => rfl⟩

/-- C7: `post_view` collapses every outcome other than `Ok(Ok(post))` —
including `InvalidId` and `PostNotFound` — into `PostError::ServerError`,
renders a fetched post as its title and content, and the error boundary
renders every error uniformly as its stringified message. -/
theorem c7_collapse_and_boundary :
    (∀ e, post_view (Except.error e) = Except.error PostError.ServerError)
    ∧ (∀ e, post_view (Except.ok (Except.error e)) = Except.error PostError.ServerError)
    ∧ (∀ p, post_view (Except.ok (Except.ok p)) =
        Except.ok (PostRender.mk p.title p.content p.title p.content))
    ∧ (∀ errors, error_boundary_fallback errors =
        List.map post_error_message (List.map Prod.snd errors)) := by
  refine ⟨fun _ => rfl, fun _ => rfl, fun _ => rfl, fun errors => ?_⟩
  rw [List.map_map]
  rfl

/-- C8: the post store is the fixed three-element seed list with ids
0, 1, 2 and the seed titles and contents; its ids are pairwise distinct
and it is non-empty. The `lazy_static` initialiser is the only writer in
the source, so the list is a constant of the embedding. -/
theorem c8_store_invariants :
    (POSTS.map Post.id).Nodup
    ∧ POSTS ≠ []
    ∧ POSTS = [Post.mk 0 "My first post" "This is my first post",
               Post.mk 1 "My second post" "This is my second post",
               Post.mk 2 "My third post" "This is my third post"] :=
  ⟨by decide, fun h => List.noConfusion h, rfl⟩

/-- C9: the router maps the root path to the home page, `/post/{id}` to
the post page in async mode, `/post_in_order/{id}` to the post page in
in-order streaming mode, and every other path to the fallback whose body
is "Page not found.". -/
theorem c9_route_table :
    matchRoute [] = RouteTarget.homePage
    ∧ (∀ s, matchRoute ["post", s] = RouteTarget.postPage SsrMode.async)
    ∧ (∀ s, matchRoute ["post_in_order", s] = RouteTarget.postPage SsrMode.inOrder)
    ∧ (∀ segs, segs ≠ [] → (∀ s, segs ≠ ["post", s]) →
        (∀ s, segs ≠ ["post_in_order", s]) →
        matchRoute segs = RouteTarget.fallbackView "Page not found.") := by
  refine ⟨rfl, fun s => rfl, fun s => rfl, ?_⟩
  intro segs h1 h2 h3
  rcases segs with _ | ⟨a, _ | ⟨b, _ | ⟨c, t⟩⟩⟩
  · exact absurd rfl h1
  · rfl
  · have ha : ¬ a = "post" := fun h => h2 b (by rw [h])
    have hb : ¬ a = "post_in_order" := fun h => h3 b (by rw [h])
    simp only [matchRoute, if_neg ha, if_neg hb]
  · rfl

/-- C9 witness: the path `/nonexistent` matches no route and renders the
fallback body "Page not found.". -/
theorem c9_route_table_witness :
    matchRoute ["nonexistent"] = RouteTarget.fallbackView "Page not found." :=
  c9_route_table.2.2.2 ["nonexistent"] (by decide)
    (fun s h => List.noConfusion h (fun h1 _ => absurd h1 (by decide)))
    (fun s h => List.noConfusion h (fun h1 _ => absurd h1 (by decide)))

/-- C10: when the route parameters parse but the `id` parameter is absent
(`PostParams.id = none`), the post page substitutes the default id 0 —
so the fetch requests `get_post 0`, which returns the seed post with
id 0 — rather than yielding `InvalidId`. -/
theorem c10_missing_id_defaults_to_zero :
    post_id (Except.ok (PostParams.mk none)) = Except.ok 0
    ∧ post_resource_fetch get_post (post_id (Except.ok (PostParams.mk none))) =
        Except.ok (Except.ok (Post.mk 0 "My first post" "This is my first post")) :=
  ⟨rfl, rfl⟩
